import Mathlib

/-!
Verification of the KrankyBearNotify delivery-channel selection and
multi-user dispatch orchestrator.

The Go sources are shallowly embedded: each platform-conditional function
becomes a Lean function over an explicit environment record; OS-level
effects (chmod, process spawn, wall broadcast, sleeps) become explicit
event lists or scheduled-action lists; `log.Fatal` / `os.Exit` become
explicit exit codes.
-/

namespace KBNotify

/-- The build/runtime platform, mirroring `runtime.GOOS` and the
build-tag dispatch over `gui_check_{linux,darwin,windows,other}.go`. -/
inductive OS where
  | linux
  | darwin
  | windows
  | other
deriving DecidableEq, Repr

/-- Process environment observed by `shouldShowToOtherUsers` on the three
platforms: effective uid, display-related environment variables, the
`NOTIFY_TARGET_USER` environment variable, the argument vector, and the
results of the two Windows privilege probes (`whoami` containing
"system", and `net session` succeeding). -/
structure ProcEnv where
  goos : OS
  euid : Nat
  display : String
  waylandDisplay : String
  notifyTargetUserEnv : String
  argv : List String
  runningAsSystem : Bool
  netSessionOk : Bool
deriving Repr

/-- `shouldShowToOtherUsers`, merged over its per-platform definitions:
`gui_check_linux.go` (root and no DISPLAY/WAYLAND_DISPLAY),
`gui_check_darwin.go` (root), `gui_check_windows.go` (the
NOTIFY_TARGET_USER env guard, the `-target-user` argv guard, then SYSTEM
or elevated via `net session`), and the `gui_check_other.go` stub. -/
def shouldShowToOtherUsers (e : ProcEnv) : Bool :=
  match e.goos with
  | OS.linux =>
      decide (e.euid = 0) && decide (e.display = "") && decide (e.waylandDisplay = "")
  | OS.darwin => decide (e.euid = 0)
  | OS.windows =>
      if e.notifyTargetUserEnv = "1" then false
      else if e.argv.contains ("-target-user") then false
      else if e.runningAsSystem then true
      else e.netSessionOk
  | OS.other => false

/-- A Linux root environment carrying the `-target-user` marker:
`gui_check_linux.go`'s predicate never inspects the marker. -/
def markerRootLinuxEnv : ProcEnv :=
  { goos := OS.linux
    euid := 0
    display := ""
    waylandDisplay := ""
    notifyTargetUserEnv := ""
    argv := ["-target-user"]
    runningAsSystem := false
    netSessionOk := false }

/-- C2 counterexample: the claim "when the marker is present in the
arguments, `shouldShowToOtherUsers` returns false on every platform" is
false: on Linux, with `-target-user` in the arguments, a root process
with no display still gets `true` from the predicate. -/
theorem shouldShowToOtherUsers_marker_ignored_on_linux :
    markerRootLinuxEnv.argv.contains ("-target-user") = true ∧
    shouldShowToOtherUsers markerRootLinuxEnv = true := by
  constructor <;> rfl

/-- C2 (amended): on Windows, a process whose arguments carry the
`-target-user` marker never has `shouldShowToOtherUsers` true, for every
combination of environment variables and privilege-probe results; on
unsupported platforms the predicate is constantly false.  (On Linux and
macOS the predicate ignores the marker; there the re-elevation guard is
instead that children are spawned as the non-root target user.) -/
theorem shouldShowToOtherUsers_windows_marker_guard (e : ProcEnv)
    (h : e.argv.contains ("-target-user") = true) :
    (e.goos = OS.windows → shouldShowToOtherUsers e = false) ∧
    (e.goos = OS.other → shouldShowToOtherUsers e = false) := by
  constructor
  · intro hg
    simp only [shouldShowToOtherUsers, hg, h]
    split <;> simp
  · intro hg
    simp [shouldShowToOtherUsers, hg]

/-- C2 witness: a concrete Windows process carrying the marker, with the
SYSTEM probe answering true, is still not dispatched elevatedly. -/
theorem shouldShowToOtherUsers_windows_marker_guard_witness :
    shouldShowToOtherUsers
      { goos := OS.windows
        euid := 0
        display := ""
        waylandDisplay := ""
        notifyTargetUserEnv := ""
        argv := ["-target-user", "-title", "Hello"]
        runningAsSystem := true
        netSessionOk := true } = false :=
  (shouldShowToOtherUsers_windows_marker_guard _ (by rfl)).1 rfl

/-- One row of `loginctl list-sessions` output after parsing, together
with the session type answered by `loginctl show-session -p Type` and
the display resolved by `getDisplayForSession`
(`gui_check_linux.go`, `getGraphicalSessions`). -/
structure RawSession where
  sessionID : String
  username : String
  stype : String
  display : String
deriving DecidableEq, Repr

/-- The session-type filter of `getGraphicalSessions`: rows whose type is
neither "x11" nor "wayland" are skipped. -/
def isGraphicalType (t : String) : Bool :=
  t = "x11" || t = "wayland"

/-- `getGraphicalSessions` (`gui_check_linux.go`): keep each loginctl row
whose session type is x11 or wayland and whose resolved display is
non-empty; one `GraphicalSession` record is produced per such row. -/
def getGraphicalSessions (rows : List RawSession) : List RawSession :=
  rows.filter (fun r => isGraphicalType r.stype && r.display ≠ "")

/-- `showNotificationToUsers` (`gui_check_linux.go`): error when no
graphical session was discovered; otherwise dispatch once per session,
tracking `successCount` and `lastErr`, and fail only when no dispatch
succeeded.  `ok r` is the per-session result of
`showNotificationAsUser`. -/
def showNotificationToUsers (rows : List RawSession) (ok : RawSession → Bool) :
    Except String Unit :=
  let sessions := getGraphicalSessions rows
  if sessions.isEmpty then Except.error ("no graphical sessions found")
  else
    let successCount := (sessions.filter ok).length
    let lastErrSet := sessions.any (fun s => !(ok s))
    if successCount = 0 ∧ lastErrSet then
      Except.error ("failed to show notification to any user")
    else Except.ok ()

/-- Number of per-session child dispatches performed by
`showNotificationToUsers`: its loop body runs once per element of
`getGraphicalSessions`. -/
def dispatchCount (rows : List RawSession) : Nat :=
  (getGraphicalSessions rows).length

/-- A host state in which the single account "alice" holds two concurrent
graphical sessions. -/
def aliceTwoSessions : List RawSession :=
  [{ sessionID := "3", username := "alice", stype := "x11", display := ":0" },
   { sessionID := "7", username := "alice", stype := "wayland", display := ":1" }]

/-- C4 counterexample: the claim "exactly one notification dispatch is
performed per distinct account" is false.  With one account holding two
concurrent graphical sessions, both rows have owner "alice", yet the
dispatcher performs two dispatches, not one. -/
theorem dispatchCount_not_deduplicated_by_account :
    aliceTwoSessions.map RawSession.username = ["alice", "alice"] ∧
    dispatchCount aliceTwoSessions = 2 ∧ (2 : Nat) ≠ 1 := by
  refine ⟨rfl, rfl, ?_⟩
  decide

/-- C4 (amended): Session Discovery performs no de-duplication by
account: for every host state, exactly one dispatch is performed per
discovered graphical session row (x11/wayland type with a resolved
display), so an account holding several concurrent graphical sessions
receives one dispatch per session. -/
theorem dispatchCount_eq_graphical_row_count (rows : List RawSession) :
    dispatchCount rows =
      rows.countP (fun r => isGraphicalType r.stype && r.display ≠ "") := by
  simp [dispatchCount, getGraphicalSessions, List.countP_eq_length_filter]

/-- Aggregation lemma shared with the dispatcher analysis: with at least
one discovered session, `showNotificationToUsers` succeeds iff some
per-session dispatch succeeded. -/
theorem showNotificationToUsers_ok_iff (rows : List RawSession)
    (ok : RawSession → Bool) :
    showNotificationToUsers rows ok = Except.ok () ↔
      (getGraphicalSessions rows ≠ [] ∧
        (getGraphicalSessions rows).any ok = true) := by
  unfold showNotificationToUsers
  by_cases hemp : (getGraphicalSessions rows).isEmpty
  · simp [hemp, List.isEmpty_iff.mp hemp]
  · have hne : getGraphicalSessions rows ≠ [] := by
      simpa [List.isEmpty_iff] using hemp
    by_cases hany : (getGraphicalSessions rows).any ok = true
    · obtain ⟨s, hs, hok⟩ := List.any_eq_true.mp hany
      have : (getGraphicalSessions rows).filter ok ≠ [] := by
        intro hnil
        have := List.filter_eq_nil_iff.mp hnil s hs
        simp [hok] at this
      have hlen : ((getGraphicalSessions rows).filter ok).length ≠ 0 := by
        simpa [List.length_eq_zero] using this
      simp [hemp, hlen, hne, hany]
    · have hall : (getGraphicalSessions rows).filter ok = [] := by
        refine List.filter_eq_nil_iff.mpr ?_
        intro s hs
        by_contra hok
        exact hany (List.any_eq_true.mpr ⟨s, hs, by simpa using hok⟩)
      have hlast : (getGraphicalSessions rows).any (fun s => !(ok s)) = true := by
        obtain ⟨s, hs⟩ := List.exists_mem_of_ne_nil _ hne
        refine List.any_eq_true.mpr ⟨s, hs, ?_⟩
        by_contra hok
        exact hany (List.any_eq_true.mpr ⟨s, hs, by simpa using hok⟩)
      simp [hemp, hall, hlast, hany]

/-- A temporary permission grant created by the Linux dispatcher in
`showNotificationAsUser`: the path that was chmod-ed, the exact original
mode, the relaxed mode written, and the delay (seconds) after which the
scheduled restore closure chmods the original mode back
(`time.Sleep(time.Duration(timeout+2) * time.Second)`). -/
structure Grant where
  path : String
  originalPerm : Nat
  grantedPerm : Nat
  restoreAfter : Int
deriving DecidableEq, Repr

/-- Inputs of one `showNotificationAsUser` call on Linux: effective uid,
the executable's ancestor directories with their modes (walk order), the
executable path and mode, the resolved icon path and mode when an icon
was requested and found, the requested timeout, and whether
`cmd.Start()` succeeded. -/
structure LinuxSpawn where
  euid : Nat
  dirs : List (String × Nat)
  exePath : String
  exePerm : Nat
  icon : Option (String × Nat)
  timeout : Int
  startOk : Bool
deriving Repr

/-- Directory test of `showNotificationAsUser`:
`(dirMode.Perm() & 0005) != 0005` — others lack read or traverse. -/
def dirNeedsPermFix (perm : Nat) : Bool :=
  Nat.land perm 0o5 ≠ 0o5

/-- Executable test: `(exeMode.Perm() & 0005) != 0005`. -/
def exeNeedsPermFix (perm : Nat) : Bool :=
  Nat.land perm 0o5 ≠ 0o5

/-- Icon test: `(mode.Perm() & 0004) == 0` — not world-readable. -/
def iconNeedsPermFix (perm : Nat) : Bool :=
  Nat.land perm 0o4 = 0

/-- Directory grants made by the walk over the executable's ancestors
(root only): each directory failing the r-x test is chmod-ed to
`originalPerm | 0555` and a restore closure capturing the original mode
is queued. -/
def dirGrants (euid : Nat) (timeout : Int) (dirs : List (String × Nat)) :
    List Grant :=
  if euid = 0 then
    dirs.filterMap (fun d =>
      if dirNeedsPermFix d.2 then
        some { path := d.1
               originalPerm := d.2
               grantedPerm := Nat.lor d.2 0o555
               restoreAfter := timeout + 2 }
      else none)
  else []

/-- Executable grant (root only): chmod to `originalPerm | 0555` with a
restore closure for the original mode. -/
def exeGrant (euid : Nat) (timeout : Int) (exePath : String) (exePerm : Nat) :
    Option Grant :=
  if euid = 0 ∧ exeNeedsPermFix exePerm then
    some { path := exePath
           originalPerm := exePerm
           grantedPerm := Nat.lor exePerm 0o555
           restoreAfter := timeout + 2 }
  else none

/-- Icon grant (root only, icon resolved): chmod to `perm | 0004` with a
restore closure for the original mode. -/
def iconGrant (euid : Nat) (timeout : Int) (icon : Option (String × Nat)) :
    Option Grant :=
  match icon with
  | none => none
  | some i =>
      if iconNeedsPermFix i.2 ∧ euid = 0 then
        some { path := i.1
               originalPerm := i.2
               grantedPerm := Nat.lor i.2 0o4
               restoreAfter := timeout + 2 }
      else none

/-- All grants created by one `showNotificationAsUser` call, in the order
the chmods happen: ancestor directories, then the executable, then the
icon. -/
def grantsMade (s : LinuxSpawn) : List Grant :=
  dirGrants s.euid s.timeout s.dirs ++
    (exeGrant s.euid s.timeout s.exePath s.exePerm).toList ++
    (iconGrant s.euid s.timeout s.icon).toList

/-- The restore closures actually launched by `showNotificationAsUser`:
the `go restoreExePerms()` / `go restoreDir()` / `go restoreIconPerms()`
lines run only after `cmd.Start()` returned nil; on the
`err != nil` path the function returns first and no restore is
scheduled. -/
def scheduledRestores (s : LinuxSpawn) : List Grant :=
  if s.startOk then
    (exeGrant s.euid s.timeout s.exePath s.exePerm).toList ++
      dirGrants s.euid s.timeout s.dirs ++
      (iconGrant s.euid s.timeout s.icon).toList
  else []

/-- Result of the call: error exactly when the child failed to start. -/
def showNotificationAsUser (s : LinuxSpawn) : Except String Unit :=
  if s.startOk then Except.ok ()
  else Except.error ("failed to run as user")

/-- A filesystem modelled as a map from path to permission mode; `chmod`
updates one path. -/
def applyChmod (fs : String → Nat) (path : String) (mode : Nat) :
    String → Nat :=
  fun q => if q = path then mode else fs q

/-- Applying a grant writes the relaxed mode. -/
def applyGrant (fs : String → Nat) (g : Grant) : String → Nat :=
  applyChmod fs g.path g.grantedPerm

/-- Running a grant's restore closure writes back the captured original
mode. -/
def applyRestore (fs : String → Nat) (g : Grant) : String → Nat :=
  applyChmod fs g.path g.originalPerm

/-- A spawn-failure scenario: root dispatch, one ancestor directory with
mode 0700 (needs relaxation), executable already world r-x, no icon, and
`cmd.Start()` fails. -/
def failedSpawn : LinuxSpawn :=
  { euid := 0
    dirs := [("/root", 0o700)]
    exePath := "/root/notify"
    exePerm := 0o755
    icon := none
    timeout := 10
    startOk := false }

/-- C1 counterexample: the claim "the original permission mode is
eventually restored on every control path, including the path on which
the child spawn fails to start" is false.  On the Linux spawn-failure
path a grant was made (the directory was chmod-ed 0700 → 0755) and the
call returns an error, yet no restore closure is ever scheduled. -/
theorem grant_not_restored_on_spawn_failure :
    grantsMade failedSpawn =
      [{ path := "/root", originalPerm := 0o700, grantedPerm := 0o755,
         restoreAfter := 12 }] ∧
    showNotificationAsUser failedSpawn = Except.error ("failed to run as user") ∧
    scheduledRestores failedSpawn = [] := by
  refine ⟨?_, rfl, rfl⟩
  rfl

/-- C1 (amended): on the control paths on which the child spawn
succeeds, every temporary permission grant created by the Linux
dispatcher has a restore scheduled (after timeout + 2 seconds) that
writes back exactly the original mode; when `cmd.Start()` fails, the
grants made before the failure are not reverted. -/
theorem grant_restored_exactly_when_spawn_succeeds (s : LinuxSpawn)
    (fs : String → Nat) (g : Grant)
    (hstart : s.startOk = true) (hg : g ∈ grantsMade s) :
    g ∈ scheduledRestores s ∧
    applyRestore (applyGrant fs g) g g.path = g.originalPerm := by
  constructor
  · simp only [scheduledRestores, hstart, if_pos]
    simp only [grantsMade, List.append_assoc, List.mem_append] at hg ⊢
    tauto
  · simp [applyRestore, applyGrant, applyChmod]

/-- C1 witness: a successful root spawn needing a directory and an
executable relaxation schedules the restore of the directory grant,
and running that restore puts the directory back to mode 0700. -/
theorem grant_restored_exactly_when_spawn_succeeds_witness :
    { path := "/root", originalPerm := 0o700, grantedPerm := 0o755,
      restoreAfter := 12 : Grant } ∈
        scheduledRestores { failedSpawn with startOk := true } ∧
    applyRestore
        (applyGrant (fun _ => 0o700)
          { path := "/root", originalPerm := 0o700, grantedPerm := 0o755,
            restoreAfter := 12 })
        { path := "/root", originalPerm := 0o700, grantedPerm := 0o755,
          restoreAfter := 12 } "/root" = 0o700 :=
  grant_restored_exactly_when_spawn_succeeds
    { failedSpawn with startOk := true } (fun _ => 0o700) _ rfl
    (by
      simp only [grantsMade, failedSpawn, dirGrants, exeGrant, iconGrant,
        dirNeedsPermFix, exeNeedsPermFix]
      decide)

/-- A delivery channel of the selector: the Fyne GUI (primary), the
WebView (secondary), the native dialog (minimal), and the wall broadcast. -/
inductive Channel where
  | primary
  | secondary
  | minimal
  | broadcast
deriving DecidableEq, Repr

/-- Process exit code: `os.Exit(0)` / normal return, versus
`os.Exit(1)` / `log.Fatal`. -/
inductive ExitCode where
  | zero
  | one
deriving DecidableEq, Repr

/-- `isWallAvailable`: on Linux, `exec.LookPath("wall")` succeeds; the
`broadcast_other.go` stub answers false on every other platform. -/
def isWallAvailable (goos : OS) (wallOnPath : Bool) : Bool :=
  if goos = OS.linux then wallOnPath else false

/-- One observable step of `broadcastWallMessage`: running `wall` with
the formatted message, sleeping, and running `wall` with the expiry
message. -/
inductive WallEvent where
  | sendMain
  | sleep (secs : Int)
  | sendExpiry
deriving DecidableEq, Repr

/-- `broadcastWallMessage` (Linux broadcast file): error when `wall` is
not on the search path; otherwise send the formatted message, and if
that failed return its error; with a positive timeout, sleep for exactly
the requested timeout, send the expiry broadcast (whose own result
`expiryOk` is ignored), and return nil; with a non-positive timeout
return nil right after the first send. -/
def broadcastWallMessage (wallOnPath mainSendOk expiryOk : Bool)
    (timeout : Int) : List WallEvent × Except String Unit :=
  if wallOnPath then
    if mainSendOk then
      if 0 < timeout then
        ([WallEvent.sendMain, WallEvent.sleep timeout, WallEvent.sendExpiry],
          Except.ok ())
      else ([WallEvent.sendMain], Except.ok ())
    else ([WallEvent.sendMain], Except.error ("failed to send wall broadcast"))
  else ([], Except.error ("wall command not found"))

/-- C10: with `wall` present and the initial broadcast sent
successfully, a positive timeout makes the call sleep for exactly the
requested timeout and send the expiry broadcast before returning
success — independently of whether the expiry send itself succeeds —
while a zero timeout returns success immediately after the single
broadcast, with no sleep and no expiry message. -/
theorem broadcastWallMessage_blocks_and_expires
    (mainSendOk expiryOk : Bool) (timeout : Int)
    (hmain : mainSendOk = true) :
    (0 < timeout →
      broadcastWallMessage true mainSendOk expiryOk timeout =
        ([WallEvent.sendMain, WallEvent.sleep timeout, WallEvent.sendExpiry],
          Except.ok ())) ∧
    (timeout = 0 →
      broadcastWallMessage true mainSendOk expiryOk timeout =
        ([WallEvent.sendMain], Except.ok ())) := by
  subst hmain
  constructor
  · intro hpos
    simp [broadcastWallMessage, hpos]
  · intro hzero
    subst hzero
    simp [broadcastWallMessage]

/-- C10 witness: a concrete call with timeout 5 and a failing expiry
send still blocks for 5 seconds, sends the expiry message and reports
success; with timeout 0 it returns at once. -/
theorem broadcastWallMessage_blocks_and_expires_witness :
    broadcastWallMessage true true false 5 =
      ([WallEvent.sendMain, WallEvent.sleep 5, WallEvent.sendExpiry],
        Except.ok ()) ∧
    broadcastWallMessage true true false 0 =
      ([WallEvent.sendMain], Except.ok ()) :=
  ⟨(broadcastWallMessage_blocks_and_expires true false 5 rfl).1 (by decide),
   (broadcastWallMessage_blocks_and_expires true false 0 rfl).2 rfl⟩

/-- Step results of the Windows OpenGL functional probe, in the order
`isOpenGLAvailable` (`gui_opengl_windows.go`) attempts them: load
opengl32.dll, find wglCreateContext, get a device context for the
desktop window, choose a pixel format, set it, create a WGL context,
and make it current. -/
structure WinGLProbe where
  dllLoadOk : Bool
  wglCreateContextFound : Bool
  getDCOk : Bool
  choosePixelFormatOk : Bool
  setPixelFormatOk : Bool
  createContextOk : Bool
  makeCurrentOk : Bool
deriving DecidableEq, Repr

/-- `isOpenGLAvailable` on Windows: each step returns false immediately
on failure; true only after every step succeeded. -/
def isOpenGLAvailableWindows (p : WinGLProbe) : Bool :=
  if !p.dllLoadOk then false
  else if !p.wglCreateContextFound then false
  else if !p.getDCOk then false
  else if !p.choosePixelFormatOk then false
  else if !p.setPixelFormatOk then false
  else if !p.createContextOk then false
  else if !p.makeCurrentOk then false
  else true

/-- `isOpenGLAvailable` with the build-tag dispatch: the
`gui_opengl_other.go` stub returns true unconditionally on every
non-Windows platform. -/
def isOpenGLAvailable (goos : OS) (p : WinGLProbe) : Bool :=
  if goos = OS.windows then isOpenGLAvailableWindows p else true

/-- A probe state in which every handshake step fails. -/
def allStepsFail : WinGLProbe :=
  { dllLoadOk := false
    wglCreateContextFound := false
    getDCOk := false
    choosePixelFormatOk := false
    setPixelFormatOk := false
    createContextOk := false
    makeCurrentOk := false }

/-- C8 counterexample: the claim "on every platform the probe attempts
the ordered handshake and returns unavailable at the first step that
fails" is false: on Linux the probe reports available even when every
handshake step fails, because the non-Windows build is the constant
`true` stub. -/
theorem isOpenGLAvailable_stub_on_linux :
    isOpenGLAvailable OS.linux allStepsFail = true := by
  rfl

/-- C8 (amended): on Windows the probe is the ordered functional
handshake — it returns available iff the drawable surface, pixel
format negotiation, context creation and make-current steps all
succeed, and a failure of any single step forces unavailable regardless
of the later steps; on non-Windows platforms the probe is the constant
`true` stub, not a functional test. -/
theorem isOpenGLAvailable_handshake (goos : OS) (p : WinGLProbe) :
    (goos = OS.windows →
      (isOpenGLAvailable goos p = true ↔
        p.dllLoadOk = true ∧ p.wglCreateContextFound = true ∧
        p.getDCOk = true ∧ p.choosePixelFormatOk = true ∧
        p.setPixelFormatOk = true ∧ p.createContextOk = true ∧
        p.makeCurrentOk = true)) ∧
    (goos ≠ OS.windows → isOpenGLAvailable goos p = true) := by
  constructor
  · intro hg
    subst hg
    simp only [isOpenGLAvailable, if_pos rfl, isOpenGLAvailableWindows]
    obtain ⟨a, b, c, d, e, f, g⟩ := p
    cases a <;> cases b <;> cases c <;> cases d <;> cases e <;> cases f <;>
      cases g <;> simp
  · intro hg
    simp [isOpenGLAvailable, hg]

/-- C8 witness: on Windows, a probe that passes everything up to context
creation but cannot make the context current reports unavailable. -/
theorem isOpenGLAvailable_handshake_witness :
    isOpenGLAvailable OS.windows { allStepsFail with
      dllLoadOk := true, wglCreateContextFound := true, getDCOk := true,
      choosePixelFormatOk := true, setPixelFormatOk := true,
      createContextOk := true } = false := by
  have h := (isOpenGLAvailable_handshake OS.windows { allStepsFail with
    dllLoadOk := true, wglCreateContextFound := true, getDCOk := true,
    choosePixelFormatOk := true, setPixelFormatOk := true,
    createContextOk := true }).1 rfl
  cases hres : isOpenGLAvailable OS.windows { allStepsFail with
    dllLoadOk := true, wglCreateContextFound := true, getDCOk := true,
    choosePixelFormatOk := true, setPixelFormatOk := true,
    createContextOk := true }
  · rfl
  · exact absurd (h.mp hres).2.2.2.2.2.2 (by decide)

/-- The zombie-prevention timeout computed inside `showNotification`
(`main.go`): `timeout + 15`, raised to 30 when below 30. -/
def zombieTimeout (timeout : Int) : Int :=
  if timeout + 15 < 30 then 30 else timeout + 15

/-- The watchdog started when the Fyne primary UI is attempted: the
`go func` sleeping `zombieTimeout` seconds and then forcing exit exists
only inside the `runtime.GOOS == "windows"` block; on every other
platform no watchdog goroutine is started. -/
def watchdogDuration (goos : OS) (timeout : Int) : Option Int :=
  if goos = OS.windows then some (zombieTimeout timeout) else none

/-- C6 counterexample: the claim "when the Primary UI channel is
attempted, a watchdog timer is started" is false on non-Windows
platforms: a Linux primary-UI attempt with the default 10-second
timeout starts no watchdog at all. -/
theorem watchdog_not_started_on_linux :
    watchdogDuration OS.linux 10 = none := by
  rfl

/-- C6 (amended): only on Windows is a watchdog started when the Primary
UI is attempted; its duration is the requested timeout plus a fixed
15-second margin, with a floor of 30 seconds (so it never fires before
the requested timeout has passed); on non-Windows platforms no watchdog
exists. -/
theorem watchdogDuration_formula (goos : OS) (timeout : Int) :
    (goos = OS.windows →
      watchdogDuration goos timeout = some (max (timeout + 15) 30) ∧
      max (timeout + 15) 30 ≥ timeout + 15 ∧ max (timeout + 15) 30 ≥ 30) ∧
    (goos ≠ OS.windows → watchdogDuration goos timeout = none) := by
  constructor
  · intro hg
    subst hg
    refine ⟨?_, le_max_left _ _, le_max_right _ _⟩
    simp only [watchdogDuration, if_pos rfl, zombieTimeout]
    rcases lt_or_le (timeout + 15) 30 with hlt | hge
    · rw [if_pos hlt, max_eq_right (le_of_lt hlt)]
      simp
    · rw [if_neg (not_lt.mpr hge), max_eq_left hge]
      simp
  · intro hg
    simp [watchdogDuration, hg]

/-- C6 witness: on Windows with the default 10-second timeout, the
watchdog is set to 30 seconds (the floor), and with a 60-second timeout
to 75 seconds. -/
theorem watchdogDuration_formula_witness :
    watchdogDuration OS.windows 10 = some 30 ∧
    watchdogDuration OS.windows 60 = some 75 :=
  ⟨by rw [(watchdogDuration_formula OS.windows 10).1 rfl |>.1]; rfl,
   by rw [(watchdogDuration_formula OS.windows 60).1 rfl |>.1]; rfl⟩

/-- The result of `showWindowsMessageBox` (`gui_opengl_windows.go`): the
function ignores the `MessageBoxW` call's result and always returns
nil. -/
def showWindowsMessageBoxErr : Option String := none

/-- `showNotification`'s panic-recovery path (`main.go`): the deferred
`recover()` catches any Fyne initialisation panic; on Windows it then
falls back to the native MessageBox (whose error, always nil, would
otherwise be fatal); on any other platform it calls `log.Fatalf` — exit
code 1, with no further channel attempted.  Returns the channels
attempted and the exit code. -/
def showNotification (goos : OS) (fynePanics : Bool) :
    List Channel × ExitCode :=
  if fynePanics then
    match goos with
    | OS.windows =>
        match showWindowsMessageBoxErr with
        | some _ => ([Channel.primary, Channel.minimal], ExitCode.one)
        | none => ([Channel.primary, Channel.minimal], ExitCode.zero)
    | _ => ([Channel.primary], ExitCode.one)
  else ([Channel.primary], ExitCode.zero)

/-- C7 counterexample: the claim "an internal panic in the Primary UI
render backend is converted into a recoverable channel failure that
triggers fallback to a degraded channel" is false on Linux: the panic is
recovered but `log.Fatalf` terminates the invocation with exit code 1
and no degraded channel is attempted. -/
theorem panic_no_fallback_on_linux :
    showNotification OS.linux true = ([Channel.primary], ExitCode.one) := by
  rfl

/-- C7 (amended): a Fyne panic is always caught by the deferred
`recover()` at the `showNotification` boundary — it never propagates as
a panic; on Windows it triggers fallback to the native MessageBox
(which reports success), while on every other platform the recovery
handler terminates the invocation with a fatal error (exit code 1)
without attempting any degraded channel; without a panic the primary
channel completes normally. -/
theorem showNotification_panic_recovery (goos : OS) :
    (goos = OS.windows →
      showNotification goos true =
        ([Channel.primary, Channel.minimal], ExitCode.zero)) ∧
    (goos ≠ OS.windows →
      showNotification goos true = ([Channel.primary], ExitCode.one)) ∧
    showNotification goos false = ([Channel.primary], ExitCode.zero) := by
  refine ⟨?_, ?_, rfl⟩
  · intro hg
    subst hg
    rfl
  · intro hg
    cases goos <;> simp_all [showNotification]

/-- C7 witness: on Windows a panicking Fyne attempt falls back to the
MessageBox and the invocation exits 0. -/
theorem showNotification_panic_recovery_witness :
    showNotification OS.windows true =
      ([Channel.primary, Channel.minimal], ExitCode.zero) :=
  (showNotification_panic_recovery OS.windows).1 rfl

/-- Environment of the normal (non-elevated, non-override) delivery path
of `main`: the platform, the probe results, the build-time WebView flag,
and the runtime outcomes of the individual channels. -/
structure NormalEnv where
  goos : OS
  guiAvailable : Bool
  wallOnPath : Bool
  wallOk : Bool
  glProbe : WinGLProbe
  runningAsSystem : Bool
  webviewBuilt : Bool
  webviewOk : Bool
  fynePanics : Bool
deriving Repr

/-- The normal delivery path of `main` (GUI check, wall fallback,
OpenGL check, WebView / MessageBox fallbacks, then the Fyne primary
UI): returns the channels attempted in order and the exit code. -/
def normalPath (e : NormalEnv) : List Channel × ExitCode :=
  if !e.guiAvailable then
    if decide (e.goos = OS.linux) && isWallAvailable e.goos e.wallOnPath then
      ([Channel.broadcast], if e.wallOk then ExitCode.zero else ExitCode.one)
    else ([], ExitCode.one)
  else if !(isOpenGLAvailable e.goos e.glProbe) then
    let skipWebView := decide (e.goos = OS.windows) && e.runningAsSystem
    if !skipWebView && e.webviewBuilt then
      if e.webviewOk then ([Channel.secondary], ExitCode.zero)
      else if e.goos = OS.windows then
        ([Channel.secondary, Channel.minimal],
          match showWindowsMessageBoxErr with
          | some _ => ExitCode.one
          | none => ExitCode.zero)
      else ([Channel.secondary], ExitCode.one)
    else if e.goos = OS.windows then
      ([Channel.minimal],
        match showWindowsMessageBoxErr with
        | some _ => ExitCode.one
        | none => ExitCode.zero)
    else ([], ExitCode.one)
  else showNotification e.goos e.fynePanics

/-- C5: whenever the GUI-reachability probe fails, the selector picks
the wall broadcast iff the broadcast tool is present (which is only
possible on Linux), regardless of every graphics capability (OpenGL
probe, WebView build, Fyne behaviour); when the broadcast tool is also
absent, no channel is selected and the invocation exits 1. -/
theorem normalPath_gui_unreachable (e : NormalEnv)
    (h : e.guiAvailable = false) :
    (isWallAvailable e.goos e.wallOnPath = true →
      (normalPath e).1 = [Channel.broadcast]) ∧
    (isWallAvailable e.goos e.wallOnPath = false →
      normalPath e = ([], ExitCode.one)) := by
  constructor
  · intro hwall
    have hlinux : e.goos = OS.linux := by
      by_contra hg
      simp [isWallAvailable, hg] at hwall
    rw [hlinux] at hwall
    simp [normalPath, h, hlinux, hwall]
  · intro hwall
    by_cases hlinux : e.goos = OS.linux
    · rw [hlinux] at hwall
      simp [normalPath, h, hlinux, hwall]
    · simp [normalPath, h, hlinux]

/-- A headless Linux host with `wall` on the path (all OpenGL probe
steps passing, WebView compiled in). -/
def headlessLinuxWithWall : NormalEnv :=
  { goos := OS.linux
    guiAvailable := false
    wallOnPath := true
    wallOk := true
    glProbe := { allStepsFail with dllLoadOk := true }
    runningAsSystem := false
    webviewBuilt := true
    webviewOk := true
    fynePanics := false }

/-- The same headless Linux host without `wall`. -/
def headlessLinuxNoWall : NormalEnv :=
  { headlessLinuxWithWall with wallOnPath := false }

/-- C5 witness: a headless Linux host with `wall` on the path selects
the broadcast channel even though graphics capabilities are present;
the same host without `wall` exits 1 selecting nothing. -/
theorem normalPath_gui_unreachable_witness :
    (normalPath headlessLinuxWithWall).1 = [Channel.broadcast] ∧
    normalPath headlessLinuxNoWall = ([], ExitCode.one) :=
  ⟨(normalPath_gui_unreachable headlessLinuxWithWall rfl).1 rfl,
   (normalPath_gui_unreachable headlessLinuxNoWall rfl).2 rfl⟩

/-- Result of one of the early override blocks of `main`: a fatal
`log.Fatal` (exit 1), a successful delivery followed by `os.Exit(0)`, or
continuing to the rest of `main`. -/
inductive OverrideStep where
  | fatalError
  | exitZero
  | continueMain
deriving DecidableEq, Repr

/-- The `-win-webview` ("secondary-only") override block of `main`:
non-Windows is fatal; when `shouldShowToOtherUsers()` holds, the block
defers to the elevated notification logic (the flag is passed to child
processes); otherwise a build without the webview tag is fatal
immediately, and a compiled-in WebView is run, its failure fatal. -/
def winWebViewBlock (goos : OS) (winWebView shouldShowOthers webviewBuilt
    webviewOk : Bool) : OverrideStep :=
  if !winWebView then OverrideStep.continueMain
  else if goos ≠ OS.windows then OverrideStep.fatalError
  else if shouldShowOthers then OverrideStep.continueMain
  else if !webviewBuilt then OverrideStep.fatalError
  else if webviewOk then OverrideStep.exitZero
  else OverrideStep.fatalError

/-- C9 counterexample: the claim "when the secondary-only override is
requested and the secondary renderer was not compiled in, the invocation
errors out immediately" is false for elevated invocations: on Windows
with `shouldShowToOtherUsers()` true, the block continues to the
elevated dispatch logic instead of raising any error, even though the
WebView is not compiled in. -/
theorem winWebView_override_deferred_when_elevated :
    winWebViewBlock OS.windows true true false false =
      OverrideStep.continueMain := by
  rfl

/-- C9 (amended): in a non-elevated Windows invocation, requesting the
secondary-only override with the WebView renderer not compiled in is an
immediate fatal configuration error with no fallback channel; an
elevated invocation instead defers the override to the multi-user
dispatch logic, passing the flag to the child processes. -/
theorem winWebView_override_fatal_when_not_built
    (shouldShowOthers webviewOk : Bool) :
    (shouldShowOthers = false →
      winWebViewBlock OS.windows true shouldShowOthers false webviewOk =
        OverrideStep.fatalError) ∧
    (shouldShowOthers = true →
      winWebViewBlock OS.windows true shouldShowOthers false webviewOk =
        OverrideStep.continueMain) := by
  constructor
  · intro h
    subst h
    rfl
  · intro h
    subst h
    rfl

/-- C9 witness: the non-elevated fatal case at concrete inputs. -/
theorem winWebView_override_fatal_when_not_built_witness :
    winWebViewBlock OS.windows true false false true =
      OverrideStep.fatalError :=
  (winWebView_override_fatal_when_not_built false true).1 rfl

/-- Environment of the elevated branch of `main` (the
`shouldShowToOtherUsers()` block): the platform, the `-force-wall` and
`-gui-only` flags as read there, whether `wall` is on the path, the
aggregate result of the GUI fan-out (`showNotificationToUsers`), the
wall broadcast result, and the Windows SYSTEM probe. -/
structure ElevEnv where
  goos : OS
  forceWall : Bool
  guiOnly : Bool
  wallOnPath : Bool
  dispatchOk : Bool
  wallOk : Bool
  runningAsSystem : Bool
deriving Repr

/-- Outcome of the elevated branch: exit 0, fatal exit 1, or fall
through to the normal single-user delivery path ("Warning: Could not
notify via GUI or wall, trying normal GUI mode"). -/
inductive ElevStep where
  | exitZero
  | exitOne
  | fallThrough
deriving DecidableEq, Repr

/-- `guiSuccess` as computed in `main`: the fan-out is attempted unless
`-force-wall` is set, and succeeds when `showNotificationToUsers`
returned nil. -/
def guiSuccessOf (e : ElevEnv) : Bool :=
  !e.forceWall && e.dispatchOk

/-- `wallSuccess` as computed in `main`: Linux, not `-gui-only`, `wall`
present, and the broadcast succeeded. -/
def wallSuccessOf (e : ElevEnv) : Bool :=
  decide (e.goos = OS.linux) && !e.guiOnly &&
    isWallAvailable e.goos e.wallOnPath && e.wallOk

/-- The elevated branch of `main`: exit 0 when either the GUI fan-out or
the wall broadcast succeeded; otherwise a fatal error when running as
SYSTEM on Windows; otherwise fall through to the normal GUI path. -/
def elevatedBlock (e : ElevEnv) : ElevStep :=
  if guiSuccessOf e || wallSuccessOf e then ElevStep.exitZero
  else if decide (e.goos = OS.windows) && e.runningAsSystem then
    ElevStep.exitOne
  else ElevStep.fallThrough

/-- Exit code of the full elevated invocation: the elevated branch,
then — on fall-through — the normal delivery path. -/
def mainElevatedExit (e : ElevEnv) (n : NormalEnv) : ExitCode :=
  match elevatedBlock e with
  | ElevStep.exitZero => ExitCode.zero
  | ElevStep.exitOne => ExitCode.one
  | ElevStep.fallThrough => (normalPath n).2

/-- The elevated environment of the C3 counterexample: a Linux root
invocation whose GUI fan-out failed and which has no wall tool. -/
def bothFailedLinuxElev : ElevEnv :=
  { goos := OS.linux
    forceWall := false
    guiOnly := false
    wallOnPath := false
    dispatchOk := false
    wallOk := false
    runningAsSystem := false }

/-- The continuation of the C3 counterexample: the normal path finds the
GUI reachable and the Fyne primary UI succeeds. -/
def recoveredNormalEnv : NormalEnv :=
  { headlessLinuxWithWall with guiAvailable := true }

/-- C3 counterexample: the claim "overall success (exit code 0) iff at
least one per-user child dispatch succeeded or the broadcast fallback
succeeded" is false: on Linux with every child dispatch failed and no
broadcast tool, the invocation falls through to the normal GUI path and
still exits 0 when that direct Fyne attempt succeeds. -/
theorem elevated_success_without_child_or_broadcast :
    guiSuccessOf bothFailedLinuxElev = false ∧
    wallSuccessOf bothFailedLinuxElev = false ∧
    mainElevatedExit bothFailedLinuxElev recoveredNormalEnv =
      ExitCode.zero := by
  refine ⟨rfl, rfl, ?_⟩
  rfl

/-- C3 (amended): the elevated dispatcher exits 0 whenever at least one
per-user child dispatch or the wall broadcast succeeded; an exit code of
1 implies both failed; when both fail it exits 1 immediately only when
running as SYSTEM on Windows, and otherwise falls through to the normal
single-user delivery path, whose outcome determines the exit code. -/
theorem mainElevatedExit_aggregation (e : ElevEnv) (n : NormalEnv) :
    (guiSuccessOf e = true ∨ wallSuccessOf e = true →
      mainElevatedExit e n = ExitCode.zero) ∧
    (mainElevatedExit e n = ExitCode.one →
      guiSuccessOf e = false ∧ wallSuccessOf e = false) ∧
    (guiSuccessOf e = false → wallSuccessOf e = false →
      e.goos = OS.windows → e.runningAsSystem = true →
      mainElevatedExit e n = ExitCode.one) ∧
    (guiSuccessOf e = false → wallSuccessOf e = false →
      (decide (e.goos = OS.windows) && e.runningAsSystem) = false →
      mainElevatedExit e n = (normalPath n).2) := by
  refine ⟨?_, ?_, ?_, ?_⟩
  · intro h
    have hor : (guiSuccessOf e || wallSuccessOf e) = true := by
      rcases h with h | h <;> simp [h]
    simp [mainElevatedExit, elevatedBlock, hor]
  · intro h
    by_cases hgui : guiSuccessOf e = true
    · simp [mainElevatedExit, elevatedBlock, hgui] at h
    · by_cases hwall : wallSuccessOf e = true
      · simp [mainElevatedExit, elevatedBlock, hwall] at h
      · exact ⟨Bool.eq_false_iff.mpr hgui, Bool.eq_false_iff.mpr hwall⟩
  · intro hgui hwall hg hsys
    simp [mainElevatedExit, elevatedBlock, hgui, hwall, hg, hsys]
  · intro hgui hwall hsys
    simp [mainElevatedExit, elevatedBlock, hgui, hwall, hsys]

/-- C3 witness: a Linux elevated invocation with no GUI session reached
but a successful wall broadcast exits 0. -/
theorem mainElevatedExit_aggregation_witness :
    mainElevatedExit
      { bothFailedLinuxElev with wallOnPath := true, wallOk := true }
      recoveredNormalEnv = ExitCode.zero :=
  (mainElevatedExit_aggregation
      { bothFailedLinuxElev with wallOnPath := true, wallOk := true }
      recoveredNormalEnv).1 (Or.inr rfl)

end KBNotify
